import Mathlib

/-!
Verification development for the model-deployment orchestration script
(`scripts/deploy-model.sh`).  The script is a strictly sequential pipeline

  check_prerequisites → check_resources → setup_namespace →
  deploy_model → monitor_deployment → health_check

where any `exit 1` aborts all later stages.  We embed it shallowly:

* `Config` holds the parsed command-line parameters (the script's global
  variables MODEL_TYPE, NAMESPACE, ENVIRONMENT, DRY_RUN, VERBOSE, TIMEOUT).
* `World` holds the responses of every external collaborator the script
  consults (tool availability, `oc whoami`, node/storage counts, file
  existence, helm result, rollout result, service/route/health lookups).
* Each stage is a function `Config → World → StageOut` returning the list
  of external calls it performs (`Effect`), the warnings it logs, and
  `some e` when it would `exit 1`.
* `runPipeline` chains the stages exactly as `main` does, recording which
  stages started.

The `verbose` flag only appends a `--debug` flag to the helm invocation and
is not reflected in the effect trace; the log-file plumbing (`tee`, `trap
cleanup`) is pure presentation and is not modelled.
-/

/-- Parsed invocation parameters of the script (defaults at the top of the
script; the command-line flags overwrite them). -/
structure Config where
  modelType : String
  namespc : String
  environment : String
  dryRun : Bool
  verbose : Bool
  timeout : Int
  deriving DecidableEq, Repr

/-- Responses of the external collaborators consulted by the script. -/
structure World where
  /-- names of executables found by `command -v` -/
  installed : List String
  /-- `oc whoami` succeeds -/
  loggedIn : Bool
  /-- `oc get nodes -l accelerator=h100 --no-headers | wc -l` -/
  gpuNodes : Nat
  /-- summed allocatable `nvidia.com/gpu` units (`${available_gpus:-0}`) -/
  availableGpus : Nat
  /-- `oc get storageclass --no-headers | wc -l` -/
  storageClasses : Nat
  /-- `oc get namespace "$NAMESPACE"` succeeds -/
  namespaceExists : Bool
  /-- the environment-specific values file exists (`[[ -f "$values_file" ]]`) -/
  valuesFileExists : Bool
  /-- the `helm upgrade --install ...` invocation succeeds -/
  helmSucceeds : Bool
  /-- `oc rollout status` reports readiness within the timeout -/
  rolloutReady : Bool
  /-- `oc get service "$service_name"` succeeds -/
  serviceExists : Bool
  /-- number of addresses in the service's first endpoint subset -/
  endpointCount : Nat
  /-- `oc get route "$route_name"` succeeds -/
  routeExists : Bool
  /-- `.spec.host` of the route -/
  routeHost : String
  /-- `curl -f -s https://$route_host/health` succeeds -/
  healthOk : Bool
  deriving DecidableEq, Repr

/-- External calls the script performs, one constructor per collaborator
invocation site. -/
inductive Effect where
  /-- `command -v "$tool"` (local PATH lookup, not a cluster call) -/
  | checkTool (tool : String)
  /-- `oc whoami` (read-only authentication probe against the cluster) -/
  | ocWhoami
  /-- `oc get nodes -l accelerator=h100 --no-headers` -/
  | ocGetNodes
  /-- `oc describe nodes -l accelerator=h100` (allocatable GPU scrape) -/
  | ocDescribeNodes
  /-- `oc get storageclass --no-headers` -/
  | ocGetStorageClasses
  /-- `oc get namespace "$NAMESPACE"` -/
  | ocGetNamespace (ns : String)
  /-- `oc create namespace "$NAMESPACE"` (mutating) -/
  | ocCreateNamespace (ns : String)
  /-- `oc apply -f .../rbac/ -n "$NAMESPACE"` (mutating) -/
  | ocApplyRBAC (ns : String)
  /-- `[[ -f "$values_file" ]]` (local filesystem check) -/
  | checkValuesFile (environment : String)
  /-- `helm upgrade --install $release ... --values $valuesFile --timeout
  ${TIMEOUT}s --wait [--set ...] [--dry-run]`; mutating unless the
  `--dry-run` flag is passed -/
  | helmUpgrade (release : String) (valuesFile : String)
      (sets : List (String × String)) (timeout : Int) (dryRunFlag : Bool)
  /-- `oc rollout status deployment/$name --timeout=${TIMEOUT}s` -/
  | ocRolloutStatus (name : String) (timeout : Int)
  /-- `oc logs -l app=$name --tail=N` -/
  | ocLogs (name : String) (tailLines : Nat)
  /-- `oc get service "$service_name"` -/
  | ocGetService (name : String)
  /-- `oc get endpoints "$service_name" -o json` -/
  | ocGetEndpoints (name : String)
  /-- `oc get route "$route_name"` -/
  | ocGetRoute (name : String)
  /-- `oc get route "$route_name" -o jsonpath=...` (host lookup) -/
  | ocGetRouteHost (name : String)
  /-- `curl -f -s https://$host/health` -/
  | curlHealth (host : String)
  deriving DecidableEq, Repr

/-- An effect mutates cluster state iff it creates the namespace, applies
the RBAC manifests, or runs helm without the `--dry-run` flag. -/
def isMutating : Effect → Bool
  | .ocCreateNamespace _ => true
  | .ocApplyRBAC _ => true
  | .helmUpgrade _ _ _ _ dryRunFlag => !dryRunFlag
  | _ => false

/-- An effect is a call against the cluster (or its release manager /
exposed route) — everything except local PATH and filesystem checks. -/
def isClusterCall : Effect → Bool
  | .checkTool _ => false
  | .checkValuesFile _ => false
  | _ => true

/-- Conditions on which the script calls `exit 1`. -/
inductive Err where
  | missingTool (tool : String)
  | notAuthenticated
  | invalidModelType (modelType : String)
  | noGpuNodes
  | noStorageClasses
  | helmFailed
  | rolloutTimeout
  | healthCheckFailed
  deriving DecidableEq, Repr

/-- Conditions the script logs with `log_warning` and then continues. -/
inductive Warning where
  | noGpusAvailable
  | valuesFileNotFound (file : String)
  | noHealthyEndpoints (service : String)
  | serviceNotFound (service : String)
  | routeNotFound (route : String)
  deriving DecidableEq, Repr

/-- Result of one stage: the external calls it performed, the warnings it
logged, and `some e` when it exits fatally. -/
structure StageOut where
  effects : List Effect
  warnings : List Warning
  err : Option Err
  deriving DecidableEq, Repr

/-- The stages of `main`, in execution order. -/
inductive Stage where
  | prereq
  | resources
  | namespaceStage
  | deploy
  | monitor
  | health
  deriving DecidableEq, Repr

/-- `local required_tools=("oc" "kubectl" "helm" "jq")` -/
def requiredTools : List String := ["oc", "kubectl", "helm", "jq"]

/-- `local valid_models=("llama-7b" "llama-13b" "llama-70b"
"stable-diffusion" "code-llama")` -/
def validModels : List String :=
  ["llama-7b", "llama-13b", "llama-70b", "stable-diffusion", "code-llama"]

/-- The expansion `" ${valid_models[@]} "` used by the model-type test:
the array elements joined by single spaces, with a leading and a trailing
space. -/
def validModelsJoined : String :=
  " " ++ String.intercalate " " validModels ++ " "

/-- Literal contiguous-substring search on character lists:
`charsContain pat s` is true iff `pat` occurs contiguously in `s`. -/
def charsContain (pat : List Char) : List Char → Bool
  | [] => pat.isEmpty
  | c :: rest => pat.isPrefixOf (c :: rest) || charsContain pat rest

/-- The model-type validation of `check_prerequisites` (line 142):
`[[ ! " ${valid_models[@]} " =~ " ${MODEL_TYPE} " ]]`.  The fully quoted
right-hand side of `=~` is matched as a literal substring, not as an
anchored comparison, so MODEL_TYPE is accepted iff `" $MODEL_TYPE "`
occurs somewhere inside the space-joined list.  Exact enum members pass,
but so do multi-word runs of consecutive enum elements such as
`"llama-7b llama-13b"`. -/
def modelTypeAccepted (mt : String) : Bool :=
  charsContain (" " ++ mt ++ " ").data validModelsJoined.data

/-- The tool loop of `check_prerequisites`: `for tool in ...; do if !
command -v "$tool"; then log_error; exit 1; fi; done` — each iteration
performs the PATH lookup and the first missing tool aborts the loop (and
the whole script) immediately. -/
def checkTools (tools : List String) (w : World) : List Effect × Option Err :=
  match tools with
  | [] => ([], none)
  | t :: rest =>
    if w.installed.contains t then
      let r := checkTools rest w
      (Effect.checkTool t :: r.1, r.2)
    else
      ([Effect.checkTool t], some (Err.missingTool t))

/-- `check_prerequisites`: tool loop, then `oc whoami`, then the
model-type substring test against the space-joined `valid_models`. -/
def check_prerequisites (cfg : Config) (w : World) : StageOut :=
  match checkTools requiredTools w with
  | (es, some e) => ⟨es, [], some e⟩
  | (es, none) =>
    if !w.loggedIn then
      ⟨es ++ [Effect.ocWhoami], [], some Err.notAuthenticated⟩
    else if !(modelTypeAccepted cfg.modelType) then
      ⟨es ++ [Effect.ocWhoami], [], some (Err.invalidModelType cfg.modelType)⟩
    else
      ⟨es ++ [Effect.ocWhoami], [], none⟩

/-- `check_resources`: GPU node count (zero is fatal), allocatable GPU
scrape (zero is only a warning), storage class count (zero is fatal). -/
def check_resources (w : World) : StageOut :=
  if w.gpuNodes = 0 then
    ⟨[Effect.ocGetNodes], [], some Err.noGpuNodes⟩
  else
    let ws := if w.availableGpus = 0 then [Warning.noGpusAvailable] else []
    if w.storageClasses = 0 then
      ⟨[Effect.ocGetNodes, Effect.ocDescribeNodes, Effect.ocGetStorageClasses],
       ws, some Err.noStorageClasses⟩
    else
      ⟨[Effect.ocGetNodes, Effect.ocDescribeNodes, Effect.ocGetStorageClasses],
       ws, none⟩

/-- `setup_namespace`: existence check, conditional creation (skipped with
a `[DRY RUN]` log line when DRY_RUN=true), then RBAC application (likewise
skipped under dry-run).  The script assumes the `oc create`/`oc apply`
calls succeed (`set -e` would abort otherwise); we model the successful
path, which is the only one the claims mention. -/
def setup_namespace (cfg : Config) (w : World) : StageOut :=
  ⟨[Effect.ocGetNamespace cfg.namespc]
     ++ (if w.namespaceExists then []
         else if cfg.dryRun then [] else [Effect.ocCreateNamespace cfg.namespc])
     ++ (if cfg.dryRun then [] else [Effect.ocApplyRBAC cfg.namespc]),
   [], none⟩

/-- The `--set` overrides of the `case "$MODEL_TYPE"` block in
`deploy_model` (an unmatched model type adds no overrides). -/
def modelSettings (mt : String) : List (String × String) :=
  if mt = "llama-7b" then
    [("llama.enabled", "true"), ("llama.model.size", "7b"),
     ("stableDiffusion.enabled", "false")]
  else if mt = "llama-13b" then
    [("llama.enabled", "true"), ("llama.model.size", "13b"),
     ("stableDiffusion.enabled", "false")]
  else if mt = "llama-70b" then
    [("llama.enabled", "true"), ("llama.model.size", "70b"),
     ("stableDiffusion.enabled", "false"),
     ("llama.resources.requests.memory", "128Gi"),
     ("llama.resources.requests.nvidia\\.com/gpu", "4")]
  else if mt = "stable-diffusion" then
    [("llama.enabled", "false"), ("stableDiffusion.enabled", "true")]
  else if mt = "code-llama" then
    [("llama.enabled", "true"), ("llama.model.size", "7b"),
     ("llama.model.variant", "code"), ("stableDiffusion.enabled", "false")]
  else []

/-- `deploy_model`: picks `values-$ENVIRONMENT.yaml` when it exists and
falls back to `values.yaml` with a warning otherwise, builds the helm
invocation (release name `$MODEL_TYPE-$ENVIRONMENT`, model-specific
`--set` overrides, `--dry-run` appended iff DRY_RUN=true), and exits
fatally iff the helm command fails. -/
def deploy_model (cfg : Config) (w : World) : StageOut :=
  ⟨[Effect.checkValuesFile cfg.environment,
    Effect.helmUpgrade (cfg.modelType ++ "-" ++ cfg.environment)
      (if w.valuesFileExists then "values-" ++ cfg.environment ++ ".yaml"
       else "values.yaml")
      (modelSettings cfg.modelType) cfg.timeout cfg.dryRun],
   if w.valuesFileExists then []
   else [Warning.valuesFileNotFound ("values-" ++ cfg.environment ++ ".yaml")],
   if w.helmSucceeds then none else some Err.helmFailed⟩

/-- String prefix test, used for the bash glob pattern `"llama-"*`. -/
def strStartsWith (s pre : String) : Bool :=
  pre.data.isPrefixOf s.data

/-- The `case "$MODEL_TYPE"` block of `monitor_deployment`: the glob
`"llama-"*` catches llama-7b, llama-13b and llama-70b (but not
code-llama, which has its own arm mapping to the same name).  The bash
case has no default arm; it is only reached with a validated model type,
and we return `""` for the impossible fall-through. -/
def deploymentNameFor (mt : String) : String :=
  if strStartsWith mt "llama-" then "llama-7b-inference"
  else if mt = "stable-diffusion" then "stable-diffusion-xl"
  else if mt = "code-llama" then "llama-7b-inference"
  else ""

/-- `monitor_deployment`: returns immediately under dry-run; otherwise
waits on `oc rollout status` (on timeout: `oc logs --tail=50`, then
`exit 1`), then checks the service and its endpoint count (both outcomes
there are at most warnings). -/
def monitor_deployment (cfg : Config) (w : World) : StageOut :=
  if cfg.dryRun then ⟨[], [], none⟩
  else
    if w.rolloutReady then
      if w.serviceExists then
        if w.endpointCount > 0 then
          ⟨[Effect.ocRolloutStatus (deploymentNameFor cfg.modelType) cfg.timeout,
            Effect.ocGetService (deploymentNameFor cfg.modelType ++ "-service"),
            Effect.ocGetEndpoints (deploymentNameFor cfg.modelType ++ "-service")],
           [], none⟩
        else
          ⟨[Effect.ocRolloutStatus (deploymentNameFor cfg.modelType) cfg.timeout,
            Effect.ocGetService (deploymentNameFor cfg.modelType ++ "-service"),
            Effect.ocGetEndpoints (deploymentNameFor cfg.modelType ++ "-service")],
           [Warning.noHealthyEndpoints (deploymentNameFor cfg.modelType ++ "-service")],
           none⟩
      else
        ⟨[Effect.ocRolloutStatus (deploymentNameFor cfg.modelType) cfg.timeout,
          Effect.ocGetService (deploymentNameFor cfg.modelType ++ "-service")],
         [Warning.serviceNotFound (deploymentNameFor cfg.modelType ++ "-service")],
         none⟩
    else
      ⟨[Effect.ocRolloutStatus (deploymentNameFor cfg.modelType) cfg.timeout,
        Effect.ocLogs (deploymentNameFor cfg.modelType) 50],
       [], some Err.rolloutTimeout⟩

/-- The `case "$MODEL_TYPE"` block of `health_check`: the arm
`"llama-"*|"code-llama"` maps the whole llama family and code-llama to
one route name; stable-diffusion has its own. -/
def routeNameFor (mt : String) : String :=
  if strStartsWith mt "llama-" then "llama-7b-route"
  else if mt = "code-llama" then "llama-7b-route"
  else if mt = "stable-diffusion" then "stable-diffusion-route"
  else ""

/-- `health_check`: returns immediately under dry-run; a missing route is
only a warning; a resolved route whose `curl` health probe fails is
fatal. -/
def health_check (cfg : Config) (w : World) : StageOut :=
  if cfg.dryRun then ⟨[], [], none⟩
  else
    if w.routeExists then
      ⟨[Effect.ocGetRoute (routeNameFor cfg.modelType),
        Effect.ocGetRouteHost (routeNameFor cfg.modelType),
        Effect.curlHealth w.routeHost],
       [],
       if w.healthOk then none else some Err.healthCheckFailed⟩
    else
      ⟨[Effect.ocGetRoute (routeNameFor cfg.modelType)],
       [Warning.routeNotFound (routeNameFor cfg.modelType)], none⟩

/-- Accumulated result of a run of `main`: every external call in order,
every warning, the fatal error (if any), and which stages started. -/
structure RunResult where
  effects : List Effect
  warnings : List Warning
  err : Option Err
  stagesRun : List Stage
  deriving DecidableEq, Repr

/-- `main`: the six stages in order; a stage whose `err` is set aborts all
later stages (`exit 1` under `set -e`). -/
def runPipeline (cfg : Config) (w : World) : RunResult :=
  if (check_prerequisites cfg w).err.isSome then
    ⟨(check_prerequisites cfg w).effects, (check_prerequisites cfg w).warnings,
     (check_prerequisites cfg w).err, [Stage.prereq]⟩
  else if (check_resources w).err.isSome then
    ⟨(check_prerequisites cfg w).effects ++ (check_resources w).effects,
     (check_prerequisites cfg w).warnings ++ (check_resources w).warnings,
     (check_resources w).err, [Stage.prereq, Stage.resources]⟩
  else if (setup_namespace cfg w).err.isSome then
    ⟨(check_prerequisites cfg w).effects ++ (check_resources w).effects
       ++ (setup_namespace cfg w).effects,
     (check_prerequisites cfg w).warnings ++ (check_resources w).warnings
       ++ (setup_namespace cfg w).warnings,
     (setup_namespace cfg w).err,
     [Stage.prereq, Stage.resources, Stage.namespaceStage]⟩
  else if (deploy_model cfg w).err.isSome then
    ⟨(check_prerequisites cfg w).effects ++ (check_resources w).effects
       ++ (setup_namespace cfg w).effects ++ (deploy_model cfg w).effects,
     (check_prerequisites cfg w).warnings ++ (check_resources w).warnings
       ++ (setup_namespace cfg w).warnings ++ (deploy_model cfg w).warnings,
     (deploy_model cfg w).err,
     [Stage.prereq, Stage.resources, Stage.namespaceStage, Stage.deploy]⟩
  else if (monitor_deployment cfg w).err.isSome then
    ⟨(check_prerequisites cfg w).effects ++ (check_resources w).effects
       ++ (setup_namespace cfg w).effects ++ (deploy_model cfg w).effects
       ++ (monitor_deployment cfg w).effects,
     (check_prerequisites cfg w).warnings ++ (check_resources w).warnings
       ++ (setup_namespace cfg w).warnings ++ (deploy_model cfg w).warnings
       ++ (monitor_deployment cfg w).warnings,
     (monitor_deployment cfg w).err,
     [Stage.prereq, Stage.resources, Stage.namespaceStage, Stage.deploy,
      Stage.monitor]⟩
  else
    ⟨(check_prerequisites cfg w).effects ++ (check_resources w).effects
       ++ (setup_namespace cfg w).effects ++ (deploy_model cfg w).effects
       ++ (monitor_deployment cfg w).effects ++ (health_check cfg w).effects,
     (check_prerequisites cfg w).warnings ++ (check_resources w).warnings
       ++ (setup_namespace cfg w).warnings ++ (deploy_model cfg w).warnings
       ++ (monitor_deployment cfg w).warnings ++ (health_check cfg w).warnings,
     (health_check cfg w).err,
     [Stage.prereq, Stage.resources, Stage.namespaceStage, Stage.deploy,
      Stage.monitor, Stage.health]⟩

/-- Process exit code: nonzero exactly when some stage exited fatally. -/
def exitCode (r : RunResult) : Nat :=
  if r.err.isSome then 1 else 0

/-- A healthy collaborator environment: all four tools installed, an
authenticated session, three accelerator nodes with two allocatable GPUs,
one storage class, and every later collaborator call succeeding. -/
def fullWorld : World :=
  { installed := ["oc", "kubectl", "helm", "jq"], loggedIn := true,
    gpuNodes := 3, availableGpus := 2, storageClasses := 1,
    namespaceExists := false, valuesFileExists := true, helmSucceeds := true,
    rolloutReady := true, serviceExists := true, endpointCount := 2,
    routeExists := true, routeHost := "models.apps.example.com", healthOk := true }

/-- The script's default parameter values. -/
def baseConfig : Config :=
  { modelType := "llama-7b", namespc := "ai-models", environment := "staging",
    dryRun := false, verbose := false, timeout := 600 }

/-- A world in which both "oc" and "kubectl" are missing from PATH. -/
def missingToolsWorld : World := { fullWorld with installed := ["helm", "jq"] }

/-- An invocation with a non-positive timeout value. -/
def zeroTimeoutConfig : Config := { baseConfig with timeout := 0 }

/-- Every effect the tool-check loop emits is a non-mutating PATH lookup. -/
lemma checkTools_effects_nonmutating (ts : List String) (w : World) :
    ((checkTools ts w).1).all (fun e => !(isMutating e)) = true := by
  induction ts with
  | nil => rfl
  | cons t rest ih =>
    unfold checkTools
    split
    · rw [List.all_cons, ih]
      rfl
    · rfl

/-- The prerequisite stage performs only non-mutating calls. -/
lemma check_prerequisites_effects_nonmutating (cfg : Config) (w : World) :
    ((check_prerequisites cfg w).effects).all (fun e => !(isMutating e)) = true := by
  have hes := checkTools_effects_nonmutating requiredTools w
  unfold check_prerequisites
  rcases h : checkTools requiredTools w with ⟨es, e⟩
  rw [h] at hes
  cases e
  · dsimp only
    split_ifs <;>
      · rw [List.all_append, hes]
        rfl
  · exact hes

/-- The resource audit performs only non-mutating calls. -/
lemma check_resources_effects_nonmutating (w : World) :
    ((check_resources w).effects).all (fun e => !(isMutating e)) = true := by
  unfold check_resources
  split_ifs <;> rfl

/-- Under dry-run the namespace stage performs only the read-only existence
check. -/
lemma setup_namespace_effects_nonmutating_dry (cfg : Config) (w : World)
    (h : cfg.dryRun = true) :
    ((setup_namespace cfg w).effects).all (fun e => !(isMutating e)) = true := by
  simp [setup_namespace, h, isMutating]

/-- Under dry-run the deploy stage only checks the values file and invokes
helm with the simulate-only flag. -/
lemma deploy_model_effects_nonmutating_dry (cfg : Config) (w : World)
    (h : cfg.dryRun = true) :
    ((deploy_model cfg w).effects).all (fun e => !(isMutating e)) = true := by
  simp [deploy_model, h, isMutating]

/-- Under dry-run the monitor stage does nothing. -/
lemma monitor_deployment_dry (cfg : Config) (w : World) (h : cfg.dryRun = true) :
    monitor_deployment cfg w = ⟨[], [], none⟩ := by
  simp [monitor_deployment, h]

/-- Under dry-run the health stage does nothing. -/
lemma health_check_dry (cfg : Config) (w : World) (h : cfg.dryRun = true) :
    health_check cfg w = ⟨[], [], none⟩ := by
  simp [health_check, h]

/-- Non-mutation is preserved by trace concatenation. -/
lemma all_nonmut_append (l1 l2 : List Effect)
    (h1 : l1.all (fun e => !(isMutating e)) = true)
    (h2 : l2.all (fun e => !(isMutating e)) = true) :
    (l1 ++ l2).all (fun e => !(isMutating e)) = true := by
  rw [List.all_append, h1, h2]
  rfl

/-- Claim C1: with dryRun = true no stage ever performs a state-mutating
collaborator call (namespace creation, RBAC application, or a
non-simulated helm installation), while the read-only validation stages
run for real: the prerequisite check is computed exactly as in a
non-dry-run invocation, and whenever it passes the resource audit stage
executes and issues its cluster queries. -/
theorem dry_run_no_mutation (cfg : Config) (w : World) (h : cfg.dryRun = true) :
    ((runPipeline cfg w).effects.all (fun e => !(isMutating e)) = true) ∧
    check_prerequisites cfg w = check_prerequisites { cfg with dryRun := false } w ∧
    Stage.prereq ∈ (runPipeline cfg w).stagesRun ∧
    ((check_prerequisites cfg w).err = none →
      Stage.resources ∈ (runPipeline cfg w).stagesRun ∧
      Effect.ocGetNodes ∈ (runPipeline cfg w).effects) := by
  have h1 := check_prerequisites_effects_nonmutating cfg w
  have h2 := check_resources_effects_nonmutating w
  have h3 := setup_namespace_effects_nonmutating_dry cfg w h
  have h4 := deploy_model_effects_nonmutating_dry cfg w h
  refine ⟨?_, rfl, ?_, ?_⟩
  · unfold runPipeline
    rw [monitor_deployment_dry cfg w h, health_check_dry cfg w h]
    split_ifs <;> dsimp only <;>
      first
        | exact h1
        | exact all_nonmut_append _ _ h1 h2
        | exact all_nonmut_append _ _ (all_nonmut_append _ _ h1 h2) h3
        | exact all_nonmut_append _ _ (all_nonmut_append _ _ (all_nonmut_append _ _ h1 h2) h3) h4
        | exact all_nonmut_append _ _ (all_nonmut_append _ _ (all_nonmut_append _ _ (all_nonmut_append _ _ h1 h2) h3) h4) (by rfl)
        | exact all_nonmut_append _ _ (all_nonmut_append _ _ (all_nonmut_append _ _ (all_nonmut_append _ _ (all_nonmut_append _ _ h1 h2) h3) h4) (by rfl)) (by rfl)
  · unfold runPipeline
    split_ifs <;> simp
  · intro hp
    have hm : Effect.ocGetNodes ∈ (check_resources w).effects := by
      unfold check_resources
      split_ifs <;> simp
    unfold runPipeline
    simp only [hp, Option.isSome_none, Bool.false_eq_true, if_false]
    split_ifs <;> simp_all

/-- Claim C1 witness: a concrete dry-run invocation in a healthy world
exhibits a trace with no mutating effect. -/
theorem dry_run_no_mutation_witness :
    ((runPipeline { baseConfig with dryRun := true } fullWorld).effects.all
        (fun e => !(isMutating e))) = true :=
  (dry_run_no_mutation { baseConfig with dryRun := true } fullWorld (by decide)).1

/-- Claim C2: the resource audit verdict is tri-state.  Zero GPU nodes is
fatal and stops the pipeline with only the prerequisite and resource
stages started; zero storage classes (with nodes present) is fatal the
same way; zero allocatable GPUs with nodes present (and storage present)
only records a warning and the pipeline continues into the namespace
stage. -/
theorem resource_audit_tristate (cfg : Config) (w : World)
    (hp : (check_prerequisites cfg w).err = none) :
    (w.gpuNodes = 0 →
       (runPipeline cfg w).err = some Err.noGpuNodes ∧
       (runPipeline cfg w).stagesRun = [Stage.prereq, Stage.resources]) ∧
    (w.gpuNodes ≠ 0 → w.storageClasses = 0 →
       (runPipeline cfg w).err = some Err.noStorageClasses ∧
       (runPipeline cfg w).stagesRun = [Stage.prereq, Stage.resources]) ∧
    (w.gpuNodes ≠ 0 → w.storageClasses ≠ 0 → w.availableGpus = 0 →
       (check_resources w).err = none ∧
       Warning.noGpusAvailable ∈ (runPipeline cfg w).warnings ∧
       Stage.namespaceStage ∈ (runPipeline cfg w).stagesRun) := by
  refine ⟨?_, ?_, ?_⟩
  · intro hg
    have hr : check_resources w = ⟨[Effect.ocGetNodes], [], some Err.noGpuNodes⟩ := by
      simp [check_resources, hg]
    unfold runPipeline
    simp [hp, hr]
  · intro hg hs
    have hr : (check_resources w).err = some Err.noStorageClasses := by
      simp [check_resources, hg, hs]
    unfold runPipeline
    simp [hp, hr]
  · intro hg hs ha
    have hr : check_resources w =
        ⟨[Effect.ocGetNodes, Effect.ocDescribeNodes, Effect.ocGetStorageClasses],
         [Warning.noGpusAvailable], none⟩ := by
      simp [check_resources, hg, hs, ha]
    unfold runPipeline
    simp only [hp, hr, Option.isSome_none, Bool.false_eq_true, if_false]
    split_ifs <;> simp [setup_namespace]

/-- Claim C2 witness: with zero GPU nodes the concrete run halts after the
resource audit. -/
theorem resource_audit_tristate_witness :
    (runPipeline baseConfig { fullWorld with gpuNodes := 0 }).stagesRun
      = [Stage.prereq, Stage.resources] :=
  ((resource_audit_tristate baseConfig { fullWorld with gpuNodes := 0 }
      (by decide)).1 (by decide)).2

/-- When every tool in the list is installed, the tool loop checks each
one and reports no error. -/
lemma checkTools_of_all_installed (ts : List String) (w : World)
    (h : ts.all (fun t => w.installed.contains t) = true) :
    checkTools ts w = (ts.map Effect.checkTool, none) := by
  induction ts with
  | nil => rfl
  | cons t rest ih =>
    rw [List.all_cons, Bool.and_eq_true] at h
    unfold checkTools
    rw [if_pos h.1, ih h.2]
    rfl

/-- A fatal prerequisite stage is the whole run: no later stage starts. -/
lemma runPipeline_of_prereq_err (cfg : Config) (w : World) (es : List Effect) (e : Err)
    (h : check_prerequisites cfg w = ⟨es, [], some e⟩) :
    runPipeline cfg w = ⟨es, [], some e, [Stage.prereq]⟩ := by
  unfold runPipeline
  rw [h]
  rfl

/-- Claim C3 counterexample: the claim fails on the code in two ways, at
two concrete inputs.  (a) With every tool installed and an authenticated
session, the out-of-enum model type "gpt-4" is indeed rejected with the
invalid-model-type error, but the cluster call `oc whoami` has already
been performed before that rejection — the claim's "zero cluster calls"
is false, because the validation runs after the authentication probe.
(b) The validation is a literal substring test against the space-joined
enum list, so the multi-word value "llama-7b llama-13b" — also outside
the closed enum — is not rejected at all: in a healthy world the run
proceeds past the prerequisite check and completes with no error. -/
theorem invalid_model_cluster_call_cex :
    ((runPipeline { baseConfig with modelType := "gpt-4" } fullWorld).err
        = some (Err.invalidModelType "gpt-4") ∧
     Effect.ocWhoami ∈ (runPipeline { baseConfig with modelType := "gpt-4" } fullWorld).effects ∧
     isClusterCall Effect.ocWhoami = true) ∧
    ("llama-7b llama-13b" ∉ validModels ∧
     modelTypeAccepted "llama-7b llama-13b" = true ∧
     (runPipeline { baseConfig with modelType := "llama-7b llama-13b" } fullWorld).err
        = none ∧
     Stage.health ∈ (runPipeline { baseConfig with modelType := "llama-7b llama-13b" }
        fullWorld).stagesRun) := by
  decide

/-- Claim C3 amended: the script's model-type validation is a literal
substring test — MODEL_TYPE is accepted iff `" $MODEL_TYPE "` occurs in
the space-joined enum list — not exact enum membership, so multi-word
runs of consecutive enum elements are accepted despite being outside the
closed enum.  For every modelType that fails this substring test (with
the required tools installed and an authenticated session, which the
code checks first), the run is rejected with the invalid-model-type
error before any later stage starts, and the only cluster call performed
before the rejection is the read-only authentication probe `oc whoami`;
no state-mutating call is ever performed. -/
theorem invalid_model_rejected (cfg : Config) (w : World)
    (ht : requiredTools.all (fun t => w.installed.contains t) = true)
    (hl : w.loggedIn = true)
    (hm : modelTypeAccepted cfg.modelType = false) :
    (runPipeline cfg w).err = some (Err.invalidModelType cfg.modelType) ∧
    (runPipeline cfg w).stagesRun = [Stage.prereq] ∧
    (runPipeline cfg w).effects.all (fun e => !(isMutating e)) = true ∧
    (runPipeline cfg w).effects.filter isClusterCall = [Effect.ocWhoami] := by
  have hct := checkTools_of_all_installed requiredTools w ht
  have hpre : check_prerequisites cfg w =
      ⟨requiredTools.map Effect.checkTool ++ [Effect.ocWhoami], [],
       some (Err.invalidModelType cfg.modelType)⟩ := by
    unfold check_prerequisites
    rw [hct]
    simp [hl, hm]
  rw [runPipeline_of_prereq_err cfg w _ _ hpre]
  refine ⟨rfl, rfl, ?_, ?_⟩
  · show ((requiredTools.map Effect.checkTool ++ [Effect.ocWhoami]).all
        fun e => !(isMutating e)) = true
    decide
  · show (requiredTools.map Effect.checkTool ++ [Effect.ocWhoami]).filter isClusterCall
        = [Effect.ocWhoami]
    decide

/-- Claim C3 amended witness: a concrete run with an unknown model type is
rejected with the invalid-model-type error. -/
theorem invalid_model_rejected_witness :
    (runPipeline { baseConfig with modelType := "mistral-7b" } fullWorld).err
      = some (Err.invalidModelType "mistral-7b") :=
  (invalid_model_rejected { baseConfig with modelType := "mistral-7b" } fullWorld
    (by decide) (by decide) (by decide)).1

/-- Claim C4 counterexample: with both "oc" and "kubectl" missing, the
checker aborts at "oc" alone — "kubectl" is never checked and no failure
is recorded for it, refuting the claim that all missing tools are
collected before aborting. -/
theorem missing_tools_not_collected_cex :
    missingToolsWorld.installed.contains "kubectl" = false ∧
    (runPipeline baseConfig missingToolsWorld).err = some (Err.missingTool "oc") ∧
    Effect.checkTool "kubectl" ∉ (runPipeline baseConfig missingToolsWorld).effects := by
  decide

/-- The tool loop stops at the first missing tool: it emits exactly the
checks up to and including that tool and reports only its failure. -/
lemma checkTools_find_first (ts : List String) (w : World) (t : String)
    (h : ts.find? (fun s => !(w.installed.contains s)) = some t) :
    checkTools ts w =
      ((ts.takeWhile (fun s => w.installed.contains s)).map Effect.checkTool
         ++ [Effect.checkTool t],
       some (Err.missingTool t)) := by
  induction ts with
  | nil => simp [List.find?] at h
  | cons a rest ih =>
    by_cases ha : w.installed.contains a = true
    · have ha2 : a ∈ w.installed := List.elem_iff.mp ha
      rw [List.find?_cons] at h
      rw [ha] at h
      simp only [Bool.not_true] at h
      unfold checkTools
      rw [if_pos ha, ih h]
      simp [List.takeWhile_cons, ha, ha2]
    · have hb : w.installed.contains a = false := by
        rw [Bool.not_eq_true] at ha
        exact ha
      have ha2 : a ∉ w.installed := by
        intro hmem
        exact ha (List.elem_iff.mpr hmem)
      rw [List.find?_cons] at h
      rw [hb] at h
      simp only [Bool.not_false, Option.some.injEq] at h
      subst h
      unfold checkTools
      rw [if_neg ha]
      simp [List.takeWhile_cons, hb, ha2]

/-- Claim C4 amended: when one or more required tools are missing, the
prerequisite checker aborts at the first missing tool in the fixed order
(oc, kubectl, helm, jq): the run fails with that tool's missing-tool
error, the trace contains exactly the PATH lookups up to and including
the first missing tool (later tools are never checked), and no other
stage starts. -/
theorem missing_tool_aborts_at_first (cfg : Config) (w : World) (t : String)
    (h : requiredTools.find? (fun s => !(w.installed.contains s)) = some t) :
    (runPipeline cfg w).err = some (Err.missingTool t) ∧
    (runPipeline cfg w).effects =
      (requiredTools.takeWhile (fun s => w.installed.contains s)).map Effect.checkTool
        ++ [Effect.checkTool t] ∧
    (runPipeline cfg w).stagesRun = [Stage.prereq] := by
  have hct := checkTools_find_first requiredTools w t h
  have hpre : check_prerequisites cfg w =
      ⟨(requiredTools.takeWhile (fun s => w.installed.contains s)).map Effect.checkTool
         ++ [Effect.checkTool t], [], some (Err.missingTool t)⟩ := by
    unfold check_prerequisites
    rw [hct]
  rw [runPipeline_of_prereq_err cfg w _ _ hpre]
  exact ⟨rfl, rfl, rfl⟩

/-- Claim C4 amended witness: with "kubectl" the first missing tool, the
concrete run fails with exactly that missing-tool error. -/
theorem missing_tool_aborts_at_first_witness :
    (runPipeline baseConfig { fullWorld with installed := ["oc", "helm"] }).err
      = some (Err.missingTool "kubectl") :=
  (missing_tool_aborts_at_first baseConfig { fullWorld with installed := ["oc", "helm"] }
    "kubectl" (by decide)).1

/-- Claim C5: the release specification for llama-70b carries the
elevated 128Gi memory override and the 4-unit accelerator override;
code-llama sets the code-variant flag while reusing the 7b base size; no
other model type receives any of these overrides; and the deploy stage
submits exactly the model's override list to helm. -/
theorem model_profile_overrides :
    (("llama.resources.requests.memory", "128Gi") ∈ modelSettings "llama-70b" ∧
     ("llama.resources.requests.nvidia\\.com/gpu", "4") ∈ modelSettings "llama-70b") ∧
    (("llama.model.variant", "code") ∈ modelSettings "code-llama" ∧
     ("llama.model.size", "7b") ∈ modelSettings "code-llama") ∧
    (∀ mt : String, mt ≠ "llama-70b" →
       ("llama.resources.requests.memory", "128Gi") ∉ modelSettings mt ∧
       ("llama.resources.requests.nvidia\\.com/gpu", "4") ∉ modelSettings mt) ∧
    (∀ mt : String, mt ≠ "code-llama" →
       ("llama.model.variant", "code") ∉ modelSettings mt) ∧
    (∀ cfg : Config, ∀ w : World,
       Effect.helmUpgrade (cfg.modelType ++ "-" ++ cfg.environment)
           (if w.valuesFileExists then "values-" ++ cfg.environment ++ ".yaml"
            else "values.yaml")
           (modelSettings cfg.modelType) cfg.timeout cfg.dryRun
         ∈ (deploy_model cfg w).effects) := by
  refine ⟨⟨by decide, by decide⟩, ⟨by decide, by decide⟩, ?_, ?_, ?_⟩
  · intro mt hne
    unfold modelSettings
    split_ifs <;> exact ⟨by decide, by decide⟩
  · intro mt hne
    unfold modelSettings
    split_ifs <;> decide
  · intro cfg w
    unfold deploy_model
    simp

/-- Claim C5 witness: llama-13b receives no code-variant flag. -/
theorem model_profile_overrides_witness :
    ("llama.model.variant", "code") ∉ modelSettings "llama-13b" :=
  (model_profile_overrides.2.2.2.1) "llama-13b" (by decide)

/-- Claim C8: when the environment-specific values file exists it is the
one passed to helm and no warning is logged; when it is absent the
default values.yaml is substituted, a warning is recorded, and the stage
still submits the release — the fatal outcome of the deploy stage never
depends on the file's absence. -/
theorem values_file_fallback (cfg : Config) (w : World) :
    (w.valuesFileExists = true →
       Effect.helmUpgrade (cfg.modelType ++ "-" ++ cfg.environment)
           ("values-" ++ cfg.environment ++ ".yaml")
           (modelSettings cfg.modelType) cfg.timeout cfg.dryRun
         ∈ (deploy_model cfg w).effects ∧
       (deploy_model cfg w).warnings = []) ∧
    (w.valuesFileExists = false →
       Effect.helmUpgrade (cfg.modelType ++ "-" ++ cfg.environment) "values.yaml"
           (modelSettings cfg.modelType) cfg.timeout cfg.dryRun
         ∈ (deploy_model cfg w).effects ∧
       Warning.valuesFileNotFound ("values-" ++ cfg.environment ++ ".yaml")
         ∈ (deploy_model cfg w).warnings) ∧
    (deploy_model cfg w).err = (deploy_model cfg { w with valuesFileExists := true }).err := by
  refine ⟨?_, ?_, ?_⟩
  · intro hf
    simp [deploy_model, hf]
  · intro hf
    simp [deploy_model, hf]
  · rfl

/-- Claim C8 witness: with the environment-specific file absent, the
concrete deploy stage records the values-file warning (and proceeds). -/
theorem values_file_fallback_witness :
    Warning.valuesFileNotFound ("values-" ++ baseConfig.environment ++ ".yaml")
      ∈ (deploy_model baseConfig { fullWorld with valuesFileExists := false }).warnings :=
  ((values_file_fallback baseConfig { fullWorld with valuesFileExists := false }).2.1
    (by decide)).2

/-- Claim C9 counterexample: an invocation with timeout 0 — not a
positive integer — is not rejected: in a healthy world the run executes
all six stages and exits 0, so no timeout validation happens before any
stage runs. -/
theorem timeout_zero_not_rejected_cex :
    zeroTimeoutConfig.timeout ≤ 0 ∧
    (runPipeline zeroTimeoutConfig fullWorld).err = none ∧
    (runPipeline zeroTimeoutConfig fullWorld).stagesRun =
      [Stage.prereq, Stage.resources, Stage.namespaceStage, Stage.deploy,
       Stage.monitor, Stage.health] ∧
    exitCode (runPipeline zeroTimeoutConfig fullWorld) = 0 := by
  decide

/-- Claim C9 amended: the script performs no validation of the timeout at
all — the fatal outcome and the set of executed stages are identical for
every timeout value; the value is merely passed through to the helm and
rollout-status collaborator calls. -/
theorem timeout_never_validated (cfg : Config) (w : World) (t : Int) :
    (runPipeline { cfg with timeout := t } w).err = (runPipeline cfg w).err ∧
    (runPipeline { cfg with timeout := t } w).stagesRun = (runPipeline cfg w).stagesRun := by
  have h1 : check_prerequisites { cfg with timeout := t } w = check_prerequisites cfg w := rfl
  have h2 : setup_namespace { cfg with timeout := t } w = setup_namespace cfg w := rfl
  have h3 : (deploy_model { cfg with timeout := t } w).err = (deploy_model cfg w).err := rfl
  have h5 : health_check { cfg with timeout := t } w = health_check cfg w := rfl
  have h4 : (monitor_deployment { cfg with timeout := t } w).err
      = (monitor_deployment cfg w).err := by
    by_cases hd : cfg.dryRun = true
    · rw [monitor_deployment_dry { cfg with timeout := t } w hd,
          monitor_deployment_dry cfg w hd]
    · rw [Bool.not_eq_true] at hd
      by_cases hr : w.rolloutReady = true
      · by_cases hsvc : w.serviceExists = true
        · by_cases hep : w.endpointCount > 0
          · simp [monitor_deployment, hd, hr, hsvc, hep]
          · simp [monitor_deployment, hd, hr, hsvc, hep]
        · simp [monitor_deployment, hd, hr, hsvc]
      · simp [monitor_deployment, hd, hr]
  constructor <;>
    · unfold runPipeline
      rw [h1, h2, h3, h4, h5]
      split_ifs <;> rfl

/-- Claim C10: in a non-dry-run invocation with modelType llama-13b or
llama-70b, the rollout monitor polls the deployment named
"llama-7b-inference" — the same workload name used for llama-7b and
code-llama — and among the valid model types only stable-diffusion is
monitored under a distinct workload name. -/
theorem monitor_shared_workload_name (cfg : Config) (w : World)
    (hd : cfg.dryRun = false)
    (hm : cfg.modelType = "llama-13b" ∨ cfg.modelType = "llama-70b") :
    Effect.ocRolloutStatus "llama-7b-inference" cfg.timeout
      ∈ (monitor_deployment cfg w).effects ∧
    deploymentNameFor "llama-7b" = "llama-7b-inference" ∧
    deploymentNameFor "code-llama" = "llama-7b-inference" ∧
    deploymentNameFor "stable-diffusion" = "stable-diffusion-xl" ∧
    (∀ mt : String, mt ∈ validModels → mt ≠ "stable-diffusion" →
       deploymentNameFor mt = "llama-7b-inference") := by
  have hname : deploymentNameFor cfg.modelType = "llama-7b-inference" := by
    rcases hm with h | h <;> rw [h] <;> decide
  refine ⟨?_, by decide, by decide, by decide, ?_⟩
  · unfold monitor_deployment
    rw [hd, hname]
    by_cases hr : w.rolloutReady = true
    · by_cases hsvc : w.serviceExists = true
      · by_cases hep : w.endpointCount > 0
        · simp [hr, hsvc, hep]
        · simp [hr, hsvc, hep]
      · simp [hr, hsvc]
    · simp [hr]
  · intro mt hmem hne
    simp only [validModels, List.mem_cons, List.not_mem_nil, or_false] at hmem
    rcases hmem with h | h | h | h | h <;> subst h
    · decide
    · decide
    · decide
    · exact absurd rfl hne
    · decide

/-- Claim C10 witness: a concrete non-dry-run llama-13b invocation polls
the deployment "llama-7b-inference". -/
theorem monitor_shared_workload_name_witness :
    Effect.ocRolloutStatus "llama-7b-inference"
        ({ baseConfig with modelType := "llama-13b" } : Config).timeout
      ∈ (monitor_deployment { baseConfig with modelType := "llama-13b" } fullWorld).effects :=
  (monitor_shared_workload_name { baseConfig with modelType := "llama-13b" } fullWorld
    (by decide) (Or.inl rfl)).1
